import Mathlib

/-!
Verification of the model-kind classification core of sqlmesh

Shallow embedding of `sqlmesh/core/model/kind.py` (plus the record base in
`sqlmesh/utils/pydantic.py`): the `ModelKindName` tag enumeration with its
derived predicates, the `TimeColumn` value type, the `ModelKind` variant
family with its pydantic field validators, and the kind classifier
(`ModelKind.field_validator`).

Python dynamic values that flow into the validators are embedded as the
`Value` sum type; sqlglot AST expressions as the `Exp` fragment actually
exercised by this module; errors as the `Err` sum distinguishing
`ConfigError` from `ValueError`/pydantic validation failures.
-/

namespace SqlMesh

/-- The kind of model (`ModelKindName` enum in kind.py), a closed tag set. -/
inductive ModelKindName where
  | INCREMENTAL_BY_TIME_RANGE
  | INCREMENTAL_BY_UNIQUE_KEY
  | FULL
  | VIEW
  | EMBEDDED
  | SEED
  | EXTERNAL
deriving DecidableEq, Repr

/-- The string value of each enum member (it is a `str` enum in Python). -/
def ModelKindName.value : ModelKindName → String
  | .INCREMENTAL_BY_TIME_RANGE => "INCREMENTAL_BY_TIME_RANGE"
  | .INCREMENTAL_BY_UNIQUE_KEY => "INCREMENTAL_BY_UNIQUE_KEY"
  | .FULL => "FULL"
  | .VIEW => "VIEW"
  | .EMBEDDED => "EMBEDDED"
  | .SEED => "SEED"
  | .EXTERNAL => "EXTERNAL"

/-- Embeds `ModelKindName(s)`: resolve a string against the enum by value;
`none` models the `ValueError` raised on an unknown value. -/
def ModelKindName.fromString? (s : String) : Option ModelKindName :=
  if s == "INCREMENTAL_BY_TIME_RANGE" then some .INCREMENTAL_BY_TIME_RANGE
  else if s == "INCREMENTAL_BY_UNIQUE_KEY" then some .INCREMENTAL_BY_UNIQUE_KEY
  else if s == "FULL" then some .FULL
  else if s == "VIEW" then some .VIEW
  else if s == "EMBEDDED" then some .EMBEDDED
  else if s == "SEED" then some .SEED
  else if s == "EXTERNAL" then some .EXTERNAL
  else none

/-- Embeds `ModelKindMixin.is_symbolic`: tag is EMBEDDED or EXTERNAL. -/
def ModelKindName.is_symbolic (n : ModelKindName) : Bool :=
  n = .EMBEDDED || n = .EXTERNAL

/-- Embeds `ModelKindMixin.is_view`. -/
def ModelKindName.is_view (n : ModelKindName) : Bool := n = .VIEW

/-- Embeds `ModelKindMixin.is_full`. -/
def ModelKindName.is_full (n : ModelKindName) : Bool := n = .FULL

/-- Embeds `ModelKindMixin.is_materialized`: `not (is_symbolic or is_view)`. -/
def ModelKindName.is_materialized (n : ModelKindName) : Bool :=
  !(n.is_symbolic || n.is_view)

/-- Embeds `ModelKindMixin.only_latest`: `is_view or is_full`. -/
def ModelKindName.only_latest (n : ModelKindName) : Bool :=
  n.is_view || n.is_full

/-- Embeds `TimeColumn` pydantic model: a column name plus optional format string. -/
structure TimeColumn where
  column : String
  format : Option String := none
deriving DecidableEq, Repr

/-- Embeds `IncrementalByTimeRangeKind`: the fields beyond the fixed `name` tag. -/
structure IncrementalByTimeRangeKind where
  time_column : TimeColumn
  batch_size : Option Int := none
  lookback : Option Int := none
deriving DecidableEq, Repr

/-- Embeds `IncrementalByUniqueKeyKind`: the fields beyond the fixed `name` tag. -/
structure IncrementalByUniqueKeyKind where
  unique_key : List String
  batch_size : Option Int := none
  lookback : Option Int := none
deriving DecidableEq, Repr

/-- Embeds `ViewKind`: the fields beyond the fixed `name` tag. -/
structure ViewKind where
  materialized : Bool := false
deriving DecidableEq, Repr

/-- Embeds `SeedKind`: the fields beyond the fixed `name` tag. -/
structure SeedKind where
  path : String
  batch_size : Int := 1000
deriving DecidableEq, Repr

/-- The `ModelKind` family: the bare base class (which may carry any tag)
and the four specialized subclasses, each fixing its tag as a `Literal`.
Two instances of different Python classes are never equal, which the sum
encoding reflects. -/
inductive ModelKind where
  | base (name : ModelKindName)
  | incrementalByTimeRange (k : IncrementalByTimeRangeKind)
  | incrementalByUniqueKey (k : IncrementalByUniqueKeyKind)
  | view (k : ViewKind)
  | seed (k : SeedKind)
deriving DecidableEq, Repr

/-- Embeds `ModelKind.model_kind_name`: the `name` field (fixed for subclasses). -/
def ModelKind.model_kind_name : ModelKind → ModelKindName
  | .base n => n
  | .incrementalByTimeRange _ => .INCREMENTAL_BY_TIME_RANGE
  | .incrementalByUniqueKey _ => .INCREMENTAL_BY_UNIQUE_KEY
  | .view _ => .VIEW
  | .seed _ => .SEED

/-- Mixin predicate on instances, delegating to the tag. -/
def ModelKind.is_symbolic (k : ModelKind) : Bool := k.model_kind_name.is_symbolic

/-- Mixin predicate on instances, delegating to the tag. -/
def ModelKind.is_materialized (k : ModelKind) : Bool := k.model_kind_name.is_materialized

/-- Mixin predicate on instances, delegating to the tag. -/
def ModelKind.only_latest (k : ModelKind) : Bool := k.model_kind_name.only_latest

/-- The sqlglot expression fragment this module manipulates: identifiers,
column references, string and integer literals, variables, tuples and
boolean nodes. An integer `Literal` stores its text; we keep the integer
and recover the text via `toString`. -/
inductive Exp where
  | identifier (this : String)
  | column (this : Exp)
  | litString (this : String)
  | litNumber (this : Int)
  | var (this : String)
  | tuple (expressions : List Exp)
  | boolean (this : Bool)

/-- Embeds `Expression.name = self.text("this")`: the `this` arg when it is a
string, the inner text when it is an Identifier/Literal/Var node, and `""`
otherwise (tuples store no `this`; for a Boolean node `this` is a raw bool). -/
def Exp.name : Exp → String
  | .identifier s => s
  | .column e =>
    match e with
    | .identifier s => s
    | .litString s => s
    | .litNumber n => toString n
    | .var s => s
    | _ => ""
  | .litString s => s
  | .litNumber n => toString n
  | .var s => s
  | .tuple _ => ""
  | .boolean _ => ""

/-- Embeds `Literal.is_int` within this fragment: only integer literals. -/
def Exp.is_int : Exp → Bool
  | .litNumber _ => true
  | _ => false

/-- Embeds `this` as a Python string, when `this` holds a string
(Identifier/Literal/Var); `none` when it holds a node or a bool. -/
def Exp.thisStr? : Exp → Option String
  | .identifier s => some s
  | .litString s => some s
  | .litNumber n => some (toString n)
  | .var s => some s
  | _ => none

/-- Collect a list of optional values, failing on any `none`. -/
def allSome {α : Type} : List (Option α) → Option (List α)
  | [] => some []
  | none :: _ => none
  | some a :: rest => (allSome rest).map (a :: ·)

/-- Python truthiness of `self.this` (`bool(v.this)`): empty strings and
`None` (the `this` of a tuple) are falsy, raw bools are themselves, and a
nested node object is truthy. -/
def Exp.thisTruthy : Exp → Bool
  | .identifier s => s ≠ ""
  | .litString s => s ≠ ""
  | .litNumber n => toString n ≠ ""
  | .var s => s ≠ ""
  | .tuple _ => false
  | .boolean b => b
  | .column _ => true

mutual

/-- SQL text of an expression (`str(expression)` in sqlglot), for the
shapes of this fragment. -/
def Exp.sqlText : Exp → String
  | .identifier s => s
  | .column e => Exp.sqlText e
  | .litString s => "\x27" ++ s ++ "\x27"
  | .litNumber n => toString n
  | .var s => s
  | .boolean b => if b then "TRUE" else "FALSE"
  | .tuple es => "(" ++ String.intercalate ", " (Exp.sqlTextList es) ++ ")"

/-- SQL texts of a list of expressions. -/
def Exp.sqlTextList : List Exp → List String
  | [] => []
  | e :: es => Exp.sqlText e :: Exp.sqlTextList es

end

/-- Embeds `exp.to_column` on a plain (dot-free) column name: a Column wrapping
an Identifier. -/
def to_column (s : String) : Exp := .column (.identifier s)

/-- Modelled from the spec: the structured AST "model-kind" node
(`d.ModelKind` from `sqlmesh/core/dialect`, which is not part of the
shown sources) "has a primary tag (one of the ModelKindName strings) and
zero or more named properties, each an identifier paired with an AST
value expression". The `value` arg of a property may be absent
(`prop.args.get("value")`). -/
structure Property where
  name : String
  value : Option Exp

/-- Modelled from the spec: the model-kind AST node: primary tag text
(`this`) plus named properties (`expressions`). -/
structure DModelKind where
  this : String
  expressions : List Property

/-- Error kinds surfaced by construction/classification. `config` is
the sqlmesh `ConfigError` (modelled from the spec: "Single error kind
surfaced to callers: ConfigurationError, carrying a human-readable
message"; the class lives in `sqlmesh/utils/errors`, outside the shown
sources). `value` is a Python `ValueError` raised inside a validator,
which pydantic wraps into a `ValidationError`; `validation` is a
pydantic-level failure (missing field, forbidden extra field, wrong
type). Only `config` is a `ConfigError`. -/
inductive Err where
  | config (msg : String)
  | value (msg : String)
  | validation (msg : String)
deriving DecidableEq, Repr

/-- The dynamic Python values that flow into the classifier and the
field validators. -/
inductive Value where
  | none
  | int (n : Int)
  | str (s : String)
  | bool (b : Bool)
  | expr (e : Exp)
  | dkind (node : DModelKind)
  | kind (k : ModelKind)
  | kindName (n : ModelKindName)
  | timeCol (tc : TimeColumn)
  | list (vs : List Value)
  | map (entries : List (String × Value))

/-- Embeds `str(v)` for the non-Expression values (Expression values render
their SQL text). -/
def pyStr : Value → String
  | .none => "None"
  | .int n => toString n
  | .str s => s
  | .bool b => if b then "True" else "False"
  | .expr e => e.sqlText
  | .kindName n => "ModelKindName." ++ n.value
  | _ => ""

/-- Python truthiness of a value (`bool(v)`); pydantic model instances
and AST nodes define no `__bool__`/`__len__`, hence are truthy. -/
def pyTruthy : Value → Bool
  | .none => false
  | .int n => n ≠ 0
  | .str s => s ≠ ""
  | .bool b => b
  | .expr _ => true
  | .dkind _ => true
  | .kind _ => true
  | .kindName _ => true
  | .timeCol _ => true
  | .list vs => !vs.isEmpty
  | .map entries => !entries.isEmpty

/-- Python `str.upper()` (the texts reaching it here are ASCII). -/
def pyUpper (s : String) : String := String.mk (s.data.map Char.toUpper)

/-- Python dict lookup on an association list whose later bindings
override earlier ones (`d[k]` / `d.get(k)`). -/
def dget (m : List (String × Value)) (k : String) : Option Value :=
  (m.filter fun p => p.1 == k).getLast?.map Prod.snd

/-- Embeds `dget` with a default (pydantic supplies the field default when the
key is absent). -/
def dgetD (m : List (String × Value)) (k : String) (d : Value) : Value :=
  (dget m k).getD d

/-- Python dict assignment `d[k] = v`, preserving insertion order. -/
def dset (m : List (String × Value)) (k : String) (v : Value) : List (String × Value) :=
  if m.any (fun p => p.1 == k) then
    m.map fun p => if p.1 == k then (k, v) else p
  else
    m ++ [(k, v)]

/-- Accumulate the value of a non-empty run of decimal digits;
`none` on any non-digit. -/
def digitsVal? (cs : List Char) (acc : Nat) : Option Nat :=
  match cs with
  | [] => some acc
  | c :: rest =>
    if c.isDigit then digitsVal? rest (acc * 10 + (c.toNat - 48)) else none

/-- Python `int(s)` on a string: parse an optionally signed decimal
integer or raise `ValueError` (canonical decimal forms; the module only
ever feeds it literal texts). -/
def pyInt? (s : String) : Except Err Int :=
  let bad : Except Err Int :=
    .error (.value ("invalid literal for int() with base 10: \x27" ++ s ++ "\x27"))
  match s.data with
  | [] => bad
  | '-' :: rest =>
    match rest, digitsVal? rest 0 with
    | _ :: _, some n => .ok (-(n : Int))
    | _, _ => bad
  | '+' :: rest =>
    match rest, digitsVal? rest 0 with
    | _ :: _, some n => .ok (n : Int)
    | _, _ => bad
  | cs =>
    match digitsVal? cs 0 with
    | some n => .ok (n : Int)
    | none => bad

/-- The sign check shared by `_Incremental._int_validator`:
`if num < 0: raise ConfigError(...)`. -/
def checkNonNegative (fieldName : String) (num : Int) : Except Err (Option Int) :=
  if num < 0 then
    .error (.config ("Invalid value " ++ toString num ++ " for " ++ fieldName ++
      ". The value should be greater than 0"))
  else
    .ok (some num)

/-- Embeds `_Incremental._int_validator` (mode "before", fields `batch_size` and
`lookback`): `None` passes through; an Expression is coerced via
`int(v.name)`; anything else via `int(v)`; then negatives raise
`ConfigError`. -/
def intFieldValidator (fieldName : String) (v : Value) : Except Err (Option Int) :=
  match v with
  | .none => .ok none
  | .expr e => do
    let num ← pyInt? e.name
    checkNonNegative fieldName num
  | .int n => checkNonNegative fieldName n
  | .bool b => checkNonNegative fieldName (if b then 1 else 0)
  | .str s => do
    let num ← pyInt? s
    checkNonNegative fieldName num
  | _ => .error (.value ("int() argument is not a number or string"))

/-- Truthiness of an optional-int field value (`self.batch_size and ...`):
`None` and `0` are falsy. -/
def optIntTruthy : Option Int → Bool
  | some n => n ≠ 0
  | none => false

/-- Embeds `_Incremental._kind_validator` (mode "after"): raises `ValueError`
when `self.batch_size and self.lookback and self.batch_size <
self.lookback`; note the Python truthiness of the first two conjuncts. -/
def incrementalAfterValidator (batch_size lookback : Option Int) : Except Err Unit :=
  if optIntTruthy batch_size && optIntTruthy lookback &&
      batch_size.getD 0 < lookback.getD 0 then
    .error (.value "batch_size cannot be less than lookback")
  else
    .ok ()

/-- Embeds `TimeColumn(column=..., format=...)` construction: the `column`
before-validator raises `ConfigError` on a falsy (empty) column. -/
def TimeColumn.make (column : String) (format : Option String) : Except Err TimeColumn :=
  if column = "" then
    .error (.config "Time Column cannot be empty.")
  else
    .ok ⟨column, format⟩

/-- Embeds `TimeColumn.field_validator` (mode "before" on `time_column`) composed
with the `TimeColumn` field validation: the first two element
names of a Tuple node become column/format; an Identifier or any other Expression
contributes its name as the column; a plain string is the column; an
already-constructed TimeColumn passes through; any other value fails the
pydantic type check. -/
def timeColumnFieldValidator (v : Value) : Except Err TimeColumn :=
  match v with
  | .expr (.tuple es) =>
    match es with
    | [] => .error (.validation "time_column.column: Field required")
    | [c] => TimeColumn.make c.name none
    | c :: f :: _ => TimeColumn.make c.name (some f.name)
  | .expr e => TimeColumn.make e.name none
  | .str s => TimeColumn.make s none
  | .timeCol tc => .ok tc
  | _ => .error (.validation "time_column: Input should be TimeColumn")

/-- Embeds `IncrementalByUniqueKeyKind._parse_unique_key` (mode "before")
composed with the `List[str]` field check: a single Identifier yields its
`this`; a Tuple yields the `this` of each element (which must all be strings
for the field check to pass); any other value is iterated, mapping
Identifiers to `this` and other items through `str`. A string iterates
into its characters; non-iterable values fail. -/
def parseUniqueKey (v : Value) : Except Err (List String) :=
  match v with
  | .expr (.identifier s) => .ok [s]
  | .expr (.tuple es) =>
    match allSome (es.map Exp.thisStr?) with
    | some strs => .ok strs
    | none => .error (.validation "unique_key: Input should be a valid string")
  | .list vs =>
    .ok (vs.map fun i =>
      match i with
      | .expr (.identifier s) => s
      | other => pyStr other)
  | .str s => .ok (s.toList.map fun c => String.mk [c])
  | _ => .error (.validation "unique_key: Input should be a valid list")

/-- Embeds `ViewKind._parse_materialized` (mode "before"): `bool(v.this)` for an
Expression, `bool(v)` otherwise. -/
def parseMaterialized (v : Value) : Bool :=
  match v with
  | .expr e => e.thisTruthy
  | other => pyTruthy other

/-- Embeds `SeedKind._parse_batch_size` (mode "before"): an integer-literal
Expression is coerced via `int(v.name)`; a non-int then raises
`ValueError`, as does a non-positive int (a Python bool counts as an
int with value 0 or 1). -/
def parseSeedBatchSize (v : Value) : Except Err Int :=
  let v1 : Value :=
    match v with
    | .expr (.litNumber n) => .int n
    | other => other
  match v1 with
  | .int n =>
    if n ≤ 0 then .error (.value "Seed batch size must be a positive integer")
    else .ok n
  | .bool b =>
    if b then .ok 1 else .error (.value "Seed batch size must be a positive integer")
  | _ => .error (.value "Seed batch size must be an integer value")

/-- Embeds `SeedKind._parse_path` (mode "before"): a Literal contributes its
inner text, anything else its `str`. -/
def parseSeedPath (v : Value) : String :=
  match v with
  | .expr (.litString s) => s
  | .expr (.litNumber n) => toString n
  | other => pyStr other

/-- Pydantic `extra="forbid"` (set in `PydanticModel.model_config`):
any provided key that is not a declared field name is rejected. -/
def extraCheck (fields : List String) (m : List (String × Value)) : Except Err Unit :=
  match m.find? (fun p => !(fields.contains p.1)) with
  | some p => .error (.validation (p.1 ++ ": Extra inputs are not permitted"))
  | none => .ok ()

/-- Validation of the `name : ModelKindName` field: an enum member passes,
a string is resolved by enum value, anything else fails; a missing value
fails (the field is required on the base class). -/
def validateKindName (v : Option Value) : Except Err ModelKindName :=
  match v with
  | none => .error (.validation "name: Field required")
  | some (.kindName n) => .ok n
  | some (.str s) =>
    match ModelKindName.fromString? s with
    | some n => .ok n
    | none => .error (.validation ("name: Input should be a valid ModelKindName, got " ++ s))
  | some _ => .error (.validation "name: Input should be a valid ModelKindName")

/-- Validation of the subclass field `name : Literal[...]` with its
default: absent means the default tag; a provided value must resolve to
exactly the fixed literal. -/
def checkLiteralName (m : List (String × Value)) (expected : ModelKindName) : Except Err Unit :=
  match dget m "name" with
  | none => .ok ()
  | some v => do
    let n ← validateKindName (some v)
    if n = expected then .ok ()
    else .error (.validation ("name: Input should be " ++ expected.value))

/-- The raw value of a required field, or the pydantic missing-field error. -/
def requireField (m : List (String × Value)) (k : String) : Except Err Value :=
  match dget m k with
  | some v => .ok v
  | none => .error (.validation (k ++ ": Field required"))

/-- Declared field names of the bare `ModelKind` class. -/
def ModelKind.fields : List String := ["name"]

/-- Declared field names of `IncrementalByTimeRangeKind`. -/
def IncrementalByTimeRangeKind.fields : List String :=
  ["batch_size", "lookback", "name", "time_column"]

/-- Declared field names of `IncrementalByUniqueKeyKind`. -/
def IncrementalByUniqueKeyKind.fields : List String :=
  ["batch_size", "lookback", "name", "unique_key"]

/-- Declared field names of `ViewKind`. -/
def ViewKind.fields : List String := ["name", "materialized"]

/-- Declared field names of `SeedKind`. -/
def SeedKind.fields : List String := ["name", "path", "batch_size"]

/-- Embeds `ModelKind(**m)`: pydantic construction of the bare base class from
keyword arguments (extra keys forbidden, `name` required). -/
def ModelKind.fromMap (m : List (String × Value)) : Except Err ModelKind := do
  extraCheck ModelKind.fields m
  let n ← validateKindName (dget m "name")
  .ok (.base n)

/-- Embeds `IncrementalByTimeRangeKind(**m)`: pydantic construction running the
before-validators in field order (`batch_size`, `lookback`, `name`,
`time_column`; defaults are validated too) and then the after-validator
`_kind_validator`. -/
def IncrementalByTimeRangeKind.fromMap (m : List (String × Value)) :
    Except Err IncrementalByTimeRangeKind := do
  extraCheck IncrementalByTimeRangeKind.fields m
  let b ← intFieldValidator "batch_size" (dgetD m "batch_size" .none)
  let l ← intFieldValidator "lookback" (dgetD m "lookback" .none)
  checkLiteralName m .INCREMENTAL_BY_TIME_RANGE
  let tcv ← requireField m "time_column"
  let tc ← timeColumnFieldValidator tcv
  incrementalAfterValidator b l
  .ok ⟨tc, b, l⟩

/-- Embeds `IncrementalByUniqueKeyKind(**m)`: pydantic construction running the
before-validators in field order and then the after-validator. -/
def IncrementalByUniqueKeyKind.fromMap (m : List (String × Value)) :
    Except Err IncrementalByUniqueKeyKind := do
  extraCheck IncrementalByUniqueKeyKind.fields m
  let b ← intFieldValidator "batch_size" (dgetD m "batch_size" .none)
  let l ← intFieldValidator "lookback" (dgetD m "lookback" .none)
  checkLiteralName m .INCREMENTAL_BY_UNIQUE_KEY
  let ukv ← requireField m "unique_key"
  let uk ← parseUniqueKey ukv
  incrementalAfterValidator b l
  .ok ⟨uk, b, l⟩

/-- Embeds `ViewKind(**m)`: pydantic construction (materialized defaults to
False and is coerced through `_parse_materialized`). -/
def ViewKind.fromMap (m : List (String × Value)) : Except Err ViewKind := do
  extraCheck ViewKind.fields m
  checkLiteralName m .VIEW
  .ok ⟨parseMaterialized (dgetD m "materialized" (.bool false))⟩

/-- Embeds `SeedKind(**m)`: pydantic construction (`path` required,
`batch_size` defaults to 1000 and is validated). -/
def SeedKind.fromMap (m : List (String × Value)) : Except Err SeedKind := do
  extraCheck SeedKind.fields m
  checkLiteralName m .SEED
  let pv ← requireField m "path"
  let bs ← parseSeedBatchSize (dgetD m "batch_size" (.int 1000))
  .ok ⟨parseSeedPath pv, bs⟩

/-- Embeds `prop.args.get("value")` as a dynamic value (`None` when absent). -/
def valOfProp (p : Property) : Value :=
  match p.value with
  | some e => .expr e
  | none => .none

/-- The dict comprehension `{prop.name: prop.args.get("value") for prop
in v.expressions}`. -/
def propsDict (ps : List Property) : List (String × Value) :=
  ps.foldl (fun m p => dset m p.name (valOfProp p)) []

/-- Embeds `v.get("name") == ModelKindName.X` for a mapping input: the entry may
be the enum member itself or (because it is a str enum) its string
value; an absent entry compares unequal. -/
def nameEntryEq (v : Option Value) (n : ModelKindName) : Bool :=
  match v with
  | some (.str s) => s == n.value
  | some (.kindName k) => k == n
  | _ => false

/-- The function `_model_kind_validator` built by `ModelKind.field_validator`: the kind
classifier. `None` stays absent; an existing `ModelKind` passes through
unchanged; a model-kind AST node dispatches on its tag to the matching
variant constructed from its properties (unrecognized tags fall back to
the bare class with `name` set); a mapping dispatches on its `name`
entry; anything else is resolved as upper-cased text against the tag
enum, yielding a bare `ModelKind` or `ConfigError`. -/
def classifyModelKind (v : Value) : Except Err (Option ModelKind) :=
  match v with
  | .none => .ok none
  | .kind k => .ok (some k)
  | .dkind node =>
    let props := propsDict node.expressions
    if node.this == ModelKindName.INCREMENTAL_BY_TIME_RANGE.value then
      (IncrementalByTimeRangeKind.fromMap props).map fun k => some (.incrementalByTimeRange k)
    else if node.this == ModelKindName.INCREMENTAL_BY_UNIQUE_KEY.value then
      (IncrementalByUniqueKeyKind.fromMap props).map fun k => some (.incrementalByUniqueKey k)
    else if node.this == ModelKindName.SEED.value then
      (SeedKind.fromMap props).map fun k => some (.seed k)
    else if node.this == ModelKindName.VIEW.value then
      (ViewKind.fromMap props).map fun k => some (.view k)
    else
      match ModelKindName.fromString? node.this with
      | some n => (ModelKind.fromMap (dset props "name" (.kindName n))).map some
      | none => .error (.value ("\x27" ++ node.this ++ "\x27 is not a valid ModelKindName"))
  | .map entries =>
    if nameEntryEq (dget entries "name") .INCREMENTAL_BY_TIME_RANGE then
      (IncrementalByTimeRangeKind.fromMap entries).map fun k => some (.incrementalByTimeRange k)
    else if nameEntryEq (dget entries "name") .INCREMENTAL_BY_UNIQUE_KEY then
      (IncrementalByUniqueKeyKind.fromMap entries).map fun k => some (.incrementalByUniqueKey k)
    else if nameEntryEq (dget entries "name") .SEED then
      (SeedKind.fromMap entries).map fun k => some (.seed k)
    else if nameEntryEq (dget entries "name") .VIEW then
      (ViewKind.fromMap entries).map fun k => some (.view k)
    else
      (ModelKind.fromMap entries).map some
  | other =>
    let name := pyUpper (match other with
      | .expr e => e.name
      | o => pyStr o)
    match ModelKindName.fromString? name with
    | some n => .ok (some (.base n))
    | none => .error (.config ("Invalid model kind \x27" ++ name ++ "\x27"))

/-- Modelled from the spec: `format_time(self.format,
d.Dialect.get_or_raise(dialect).INVERSE_TIME_MAPPING)` — the dialect
module is not part of the shown sources; for the default dialect
(`dialect=""`, the value `to_property` uses) the inverse time mapping is
empty, so "the stored format is kept in one canonical form" and passes
through unchanged. -/
def format_time_default (fmt : String) : String := fmt

/-- Embeds `TimeColumn.to_expression` at the default dialect: a bare column
reference when `format` is absent, otherwise a 2-tuple of column and
format literal (rewritten through the inverse time mapping of the dialect). -/
def TimeColumn.to_expression (tc : TimeColumn) : Exp :=
  match tc.format with
  | none => to_column tc.column
  | some f => .tuple [to_column tc.column, .litString (format_time_default f)]

/-- Embeds `TimeColumn.to_property` (default dialect `""`). -/
def TimeColumn.to_property (tc : TimeColumn) : Property :=
  ⟨"time_column", some tc.to_expression⟩

/-- Embeds `ModelKind.to_expression` and its overrides: the base class (also
inherited by `ViewKind` and `IncrementalByUniqueKeyKind`) renders just
the upper-cased tag; `IncrementalByTimeRangeKind` adds the time-column
property; `SeedKind` adds path and batch_size properties. -/
def ModelKind.to_expression (k : ModelKind) : DModelKind :=
  match k with
  | .base n => ⟨pyUpper n.value, []⟩
  | .view _ => ⟨pyUpper ModelKindName.VIEW.value, []⟩
  | .incrementalByUniqueKey _ => ⟨pyUpper ModelKindName.INCREMENTAL_BY_UNIQUE_KEY.value, []⟩
  | .incrementalByTimeRange k =>
    ⟨pyUpper ModelKindName.INCREMENTAL_BY_TIME_RANGE.value, [k.time_column.to_property]⟩
  | .seed k =>
    ⟨pyUpper ModelKindName.SEED.value,
      [⟨"path", some (.litString k.path)⟩,
       ⟨"batch_size", some (.litNumber k.batch_size)⟩]⟩

/-! Helper lemmas -/

/-- Reduce a monadic bind on a known `ok`. -/
theorem ok_bind {α β ε : Type} (a : α) (f : α → Except ε β) :
    (Except.ok a >>= f) = f a := rfl

/-- Reduce a monadic bind on a known `error`. -/
theorem error_bind {α β ε : Type} (e : ε) (f : α → Except ε β) :
    (Except.error e >>= f : Except ε β) = Except.error e := rfl

/-- Reduce `Except.map` on a known `ok`. -/
theorem map_ok {α β ε : Type} (f : α → β) (a : α) :
    Except.map f (Except.ok a : Except ε α) = Except.ok (f a) := rfl

/-- Reduce `Except.map` on a known `error`. -/
theorem map_error {α β ε : Type} (f : α → β) (e : ε) :
    Except.map f (Except.error e : Except ε α) = Except.error e := rfl

/-! Theorems for the claims -/

/-- Claim C5: The classifier is an idempotent identity on already-typed
input: a value that is already a `ModelKind` instance is returned
unchanged (no validator re-runs — by definition the instance branch calls
nothing), and `None` input yields an absent kind rather than an error. -/
theorem classifier_identity_on_typed_input :
    (∀ k : ModelKind, classifyModelKind (.kind k) = .ok (some k)) ∧
    classifyModelKind Value.none = .ok none :=
  ⟨fun _ => rfl, rfl⟩

/-- Claim C9: The derived predicates: `is_symbolic` holds exactly for
EMBEDDED and EXTERNAL, `is_materialized` exactly for the two incremental
tags, FULL and SEED, `only_latest` exactly for VIEW and FULL; and every
`ModelKind` variant exposes the same predicate values as its tag
(`model_kind_name`). -/
theorem derived_predicates_characterization :
    (∀ n : ModelKindName,
      (n.is_symbolic = true ↔ n = .EMBEDDED ∨ n = .EXTERNAL) ∧
      (n.is_materialized = true ↔
        n = .INCREMENTAL_BY_TIME_RANGE ∨ n = .INCREMENTAL_BY_UNIQUE_KEY ∨
        n = .FULL ∨ n = .SEED) ∧
      (n.only_latest = true ↔ n = .VIEW ∨ n = .FULL)) ∧
    (∀ k : ModelKind,
      k.is_symbolic = k.model_kind_name.is_symbolic ∧
      k.is_materialized = k.model_kind_name.is_materialized ∧
      k.only_latest = k.model_kind_name.only_latest) := by
  constructor
  · intro n
    cases n <;> exact ⟨by decide, by decide, by decide⟩
  · intro k
    exact ⟨rfl, rfl, rfl⟩

/-- Claim C8: Unique-key normalization: a single identifier node, a
tuple node of identifiers, and a plain sequence of strings naming the
same keys in the same order all normalize to the same ordered list of
strings. -/
theorem unique_key_normalization :
    (∀ k : String, parseUniqueKey (.expr (.identifier k)) = .ok [k]) ∧
    (∀ ks : List String,
      parseUniqueKey (.expr (.tuple (ks.map Exp.identifier))) = .ok ks) ∧
    (∀ ks : List String, parseUniqueKey (.list (ks.map Value.str)) = .ok ks) := by
  refine ⟨fun k => rfl, fun ks => ?_, fun ks => ?_⟩
  · have h : ∀ l : List String,
        allSome (List.map (Exp.thisStr? ∘ Exp.identifier) l) = some l := by
      intro l
      induction l with
      | nil => rfl
      | cons a as ih => simp [allSome, Function.comp, Exp.thisStr?, ih]
    simp only [parseUniqueKey, List.map_map, h]
  · simp only [parseUniqueKey]
    congr 1
    rw [List.map_map]
    induction ks with
    | nil => rfl
    | cons a as ih => exact congrArg (List.cons a) ih

/-- Claim C7: Seed bounds: constructing `SeedKind` with `batch_size = 0` or
`-5` fails with "Seed batch size must be a positive integer";
`batch_size = 1` succeeds, omitting it yields the validated default
1000, and every positive integer is accepted. -/
theorem seed_batch_size_bounds (n : Int) (hn : 0 < n) :
    SeedKind.fromMap [("path", .str "p"), ("batch_size", .int 0)] =
      .error (.value "Seed batch size must be a positive integer") ∧
    SeedKind.fromMap [("path", .str "p"), ("batch_size", .int (-5))] =
      .error (.value "Seed batch size must be a positive integer") ∧
    SeedKind.fromMap [("path", .str "p"), ("batch_size", .int 1)] = .ok ⟨"p", 1⟩ ∧
    SeedKind.fromMap [("path", .str "p")] = .ok ⟨"p", 1000⟩ ∧
    SeedKind.fromMap [("path", .str "p"), ("batch_size", .int n)] = .ok ⟨"p", n⟩ := by
  refine ⟨rfl, rfl, rfl, rfl, ?_⟩
  have h : parseSeedBatchSize (.int n) = .ok n := by
    show (if n ≤ 0 then Except.error (Err.value "Seed batch size must be a positive integer")
      else Except.ok n) = Except.ok n
    rw [if_neg (by omega)]
  calc SeedKind.fromMap [("path", .str "p"), ("batch_size", .int n)]
      = parseSeedBatchSize (.int n) >>= fun bs => Except.ok ⟨"p", bs⟩ := rfl
    _ = Except.ok ⟨"p", n⟩ := by rw [h, ok_bind]

/-- Witness for C7 at the concrete positive batch size 7. -/
theorem seed_batch_size_bounds_witness :
    SeedKind.fromMap [("path", .str "p"), ("batch_size", .int 7)] = .ok ⟨"p", 7⟩ :=
  (seed_batch_size_bounds 7 (by decide)).2.2.2.2

/-- Claim C6: TimeColumn shapes: parsing from a bare identifier/expression
node, from a tuple node of (column, format), and from a plain string all
yield equal `TimeColumn` values whenever the column/format contents
match (format absent for the single-element shapes); and an empty column
text fails with `ConfigError` "Time Column cannot be empty." in every
shape. -/
theorem time_column_shapes (c f : String) (hc : c ≠ "") :
    timeColumnFieldValidator (.expr (.identifier c)) = .ok ⟨c, none⟩ ∧
    timeColumnFieldValidator (.str c) = .ok ⟨c, none⟩ ∧
    timeColumnFieldValidator (.expr (.tuple [.identifier c])) = .ok ⟨c, none⟩ ∧
    timeColumnFieldValidator (.expr (.tuple [.identifier c, .litString f])) =
      .ok ⟨c, some f⟩ ∧
    timeColumnFieldValidator (.str "") =
      .error (.config "Time Column cannot be empty.") ∧
    timeColumnFieldValidator (.expr (.identifier "")) =
      .error (.config "Time Column cannot be empty.") ∧
    timeColumnFieldValidator (.expr (.tuple [.identifier ""])) =
      .error (.config "Time Column cannot be empty.") := by
  have hmk : ∀ fo : Option String, TimeColumn.make c fo = .ok ⟨c, fo⟩ := by
    intro fo
    unfold TimeColumn.make
    rw [if_neg hc]
  exact ⟨hmk none, hmk none, hmk none, hmk (some f), rfl, rfl, rfl⟩

/-- Witness for C6 at the concrete column "ds" and format "%Y". -/
theorem time_column_shapes_witness :
    timeColumnFieldValidator (.str "ds") = .ok ⟨"ds", none⟩ :=
  (time_column_shapes "ds" "%Y" (by decide)).2.1

/-- Claim C2 counterexample: The claim says every non-negative `b < l`
fails, but `batch_size = 0, lookback = 5` (0 ≤ 0 < 5) constructs
successfully: the cross-field check `self.batch_size and self.lookback
and ...` treats the falsy 0 as "not set". -/
theorem incremental_zero_batch_size_counterexample :
    IncrementalByTimeRangeKind.fromMap
        [("time_column", .str "ds"), ("batch_size", .int 0), ("lookback", .int 5)] =
      .ok ⟨⟨"ds", none⟩, some 0, some 5⟩ ∧
    (0 : Int) ≤ 0 ∧ (0 : Int) < 5 :=
  ⟨rfl, by decide, by decide⟩

/-- Claim C2 amended: For positive `b, l` with `b < l`, constructing either
incremental variant with `batch_size=b, lookback=l` fails with
"batch_size cannot be less than lookback"; for non-negative `b ≥ l` it
succeeds; and when `b = 0` or `l = 0` it also succeeds (0 is falsy in
the cross-field check), which is where the original claim fails. -/
theorem incremental_invariant_amended (b l : Int) (hb : 0 ≤ b) (hl : 0 ≤ l) :
    (0 < b → 0 < l → b < l →
      IncrementalByTimeRangeKind.fromMap
          [("time_column", .str "ds"), ("batch_size", .int b), ("lookback", .int l)] =
        .error (.value "batch_size cannot be less than lookback") ∧
      IncrementalByUniqueKeyKind.fromMap
          [("unique_key", .list [.str "id"]), ("batch_size", .int b), ("lookback", .int l)] =
        .error (.value "batch_size cannot be less than lookback")) ∧
    (l ≤ b ∨ b = 0 ∨ l = 0 →
      IncrementalByTimeRangeKind.fromMap
          [("time_column", .str "ds"), ("batch_size", .int b), ("lookback", .int l)] =
        .ok ⟨⟨"ds", none⟩, some b, some l⟩ ∧
      IncrementalByUniqueKeyKind.fromMap
          [("unique_key", .list [.str "id"]), ("batch_size", .int b), ("lookback", .int l)] =
        .ok ⟨["id"], some b, some l⟩) := by
  have hcb : checkNonNegative "batch_size" b = .ok (some b) := by
    unfold checkNonNegative; rw [if_neg (by omega)]
  have hcl : checkNonNegative "lookback" l = .ok (some l) := by
    unfold checkNonNegative; rw [if_neg (by omega)]
  have h0t : IncrementalByTimeRangeKind.fromMap
      [("time_column", .str "ds"), ("batch_size", .int b), ("lookback", .int l)] =
      (checkNonNegative "batch_size" b >>= fun ob =>
        checkNonNegative "lookback" l >>= fun ol =>
        incrementalAfterValidator ob ol >>= fun _ =>
        Except.ok ⟨⟨"ds", none⟩, ob, ol⟩) := rfl
  have h0u : IncrementalByUniqueKeyKind.fromMap
      [("unique_key", .list [.str "id"]), ("batch_size", .int b), ("lookback", .int l)] =
      (checkNonNegative "batch_size" b >>= fun ob =>
        checkNonNegative "lookback" l >>= fun ol =>
        incrementalAfterValidator ob ol >>= fun _ =>
        Except.ok ⟨["id"], ob, ol⟩) := rfl
  have hstept : IncrementalByTimeRangeKind.fromMap
      [("time_column", .str "ds"), ("batch_size", .int b), ("lookback", .int l)] =
      (incrementalAfterValidator (some b) (some l) >>= fun _ =>
        Except.ok ⟨⟨"ds", none⟩, some b, some l⟩) := by
    rw [h0t, hcb, ok_bind, hcl, ok_bind]
  have hstepu : IncrementalByUniqueKeyKind.fromMap
      [("unique_key", .list [.str "id"]), ("batch_size", .int b), ("lookback", .int l)] =
      (incrementalAfterValidator (some b) (some l) >>= fun _ =>
        Except.ok ⟨["id"], some b, some l⟩) := by
    rw [h0u, hcb, ok_bind, hcl, ok_bind]
  constructor
  · intro hb0 hl0 hlt
    have hval : incrementalAfterValidator (some b) (some l) =
        .error (.value "batch_size cannot be less than lookback") := by
      unfold incrementalAfterValidator
      rw [if_pos (by simp [optIntTruthy, Option.getD]; omega)]
    rw [hstept, hstepu, hval, error_bind, error_bind]
    exact ⟨rfl, rfl⟩
  · intro hge
    have hval : incrementalAfterValidator (some b) (some l) = .ok () := by
      unfold incrementalAfterValidator
      rw [if_neg (by simp [optIntTruthy, Option.getD]; omega)]
    rw [hstept, hstepu, hval, ok_bind, ok_bind]
    exact ⟨rfl, rfl⟩

/-- Witness for C2 (amended) at `b=1, l=2` (failure) and `b=3, l=2`
(success). -/
theorem incremental_invariant_amended_witness :
    IncrementalByTimeRangeKind.fromMap
        [("time_column", .str "ds"), ("batch_size", .int 1), ("lookback", .int 2)] =
      .error (.value "batch_size cannot be less than lookback") ∧
    IncrementalByTimeRangeKind.fromMap
        [("time_column", .str "ds"), ("batch_size", .int 3), ("lookback", .int 2)] =
      .ok ⟨⟨"ds", none⟩, some 3, some 2⟩ := by
  constructor
  · exact ((incremental_invariant_amended 1 2 (by decide) (by decide)).1
      (by decide) (by decide) (by decide)).1
  · exact ((incremental_invariant_amended 3 2 (by decide) (by decide)).2
      (Or.inl (by decide))).1

/-- Claim C4 counterexample: "view" is not one of the seven defined tag
strings, yet classifying it succeeds (the classifier upper-cases the
text before resolving it), contradicting "for every other string,
classification fails". The error message for a genuinely bad tag also
names the upper-cased text, not the verbatim input. -/
theorem tag_classification_counterexample :
    classifyModelKind (.str "view") = .ok (some (.base .VIEW)) ∧
    "view" ∉ ["INCREMENTAL_BY_TIME_RANGE", "INCREMENTAL_BY_UNIQUE_KEY", "FULL",
      "VIEW", "EMBEDDED", "SEED", "EXTERNAL"] :=
  ⟨rfl, by decide⟩

/-- Claim C4 amended: For every string whose upper-cased form is one of the
seven defined tags, classification succeeds and yields a bare
`ModelKind` with that tag; for every other string it fails with
`ConfigError` "Invalid model kind <TEXT>" (quoted) naming the upper-cased text. -/
theorem tag_classification_amended (s : String) :
    (∀ n : ModelKindName, ModelKindName.fromString? (pyUpper s) = some n →
      classifyModelKind (.str s) = .ok (some (.base n))) ∧
    (ModelKindName.fromString? (pyUpper s) = none →
      classifyModelKind (.str s) =
        .error (.config ("Invalid model kind \x27" ++ pyUpper s ++ "\x27"))) := by
  constructor
  · intro n h
    simp only [classifyModelKind, pyStr]
    rw [h]
  · intro h
    simp only [classifyModelKind, pyStr]
    rw [h]

/-- Witness for C4 (amended) at "seed" (succeeds upper-cased) and "foo"
(fails, message names FOO). -/
theorem tag_classification_amended_witness :
    classifyModelKind (.str "seed") = .ok (some (.base .SEED)) ∧
    classifyModelKind (.str "foo") =
      .error (.config "Invalid model kind \x27FOO\x27") := by
  constructor
  · exact (tag_classification_amended "seed").1 .SEED (by rfl)
  · exact (tag_classification_amended "foo").2 (by rfl)

/-- Claim C1 counterexample: Round-trip fails: `ViewKind` with
`materialized = true` renders (via the inherited `to_expression`) with
no properties, so classifying the rendered node yields
`materialized = false`, not a variant equal to the original. -/
theorem round_trip_counterexample :
    classifyModelKind (.dkind ((ModelKind.view ⟨true⟩).to_expression)) =
      .ok (some (.view ⟨false⟩)) ∧
    ModelKind.view ⟨false⟩ ≠ ModelKind.view ⟨true⟩ :=
  ⟨rfl, by decide⟩

/-- Claim C1 amended: Round-trip holds only for the variants whose
rendering retains every set field: a bare `ModelKind` whose tag is not
one of the four specialized tags, `SeedKind` (any path, positive batch
size), `ViewKind` with the default `materialized = false`, and
`IncrementalByTimeRangeKind` with unset batch_size/lookback (its
rendering keeps only the time-column property). It fails for
`ViewKind(materialized=true)` (the counterexample), for incremental
variants with batch_size/lookback set, and for
`IncrementalByUniqueKeyKind` altogether (unique_key is not rendered). -/
theorem round_trip_amended :
    (∀ n : ModelKindName,
      n ∉ [ModelKindName.INCREMENTAL_BY_TIME_RANGE,
        ModelKindName.INCREMENTAL_BY_UNIQUE_KEY, ModelKindName.SEED,
        ModelKindName.VIEW] →
      classifyModelKind (.dkind ((ModelKind.base n).to_expression)) =
        .ok (some (.base n))) ∧
    (∀ (p : String) (bs : Int), 0 < bs →
      classifyModelKind (.dkind ((ModelKind.seed ⟨p, bs⟩).to_expression)) =
        .ok (some (.seed ⟨p, bs⟩))) ∧
    (classifyModelKind (.dkind ((ModelKind.view ⟨false⟩).to_expression)) =
      .ok (some (.view ⟨false⟩))) ∧
    (∀ (c : String) (fmt : Option String), c ≠ "" →
      classifyModelKind
          (.dkind ((ModelKind.incrementalByTimeRange ⟨⟨c, fmt⟩, none, none⟩).to_expression)) =
        .ok (some (.incrementalByTimeRange ⟨⟨c, fmt⟩, none, none⟩))) := by
  refine ⟨?_, ?_, rfl, ?_⟩
  · intro n hn
    cases n
    case INCREMENTAL_BY_TIME_RANGE => exact absurd (by decide) hn
    case INCREMENTAL_BY_UNIQUE_KEY => exact absurd (by decide) hn
    case SEED => exact absurd (by decide) hn
    case VIEW => exact absurd (by decide) hn
    case FULL => rfl
    case EMBEDDED => rfl
    case EXTERNAL => rfl
  · intro p bs hbs
    have h0 : classifyModelKind (.dkind ((ModelKind.seed ⟨p, bs⟩).to_expression)) =
        Except.map (fun k => some (ModelKind.seed k))
          (parseSeedBatchSize (.expr (.litNumber bs)) >>= fun b => Except.ok ⟨p, b⟩) := rfl
    have h1 : parseSeedBatchSize (.expr (.litNumber bs)) = .ok bs := by
      show (if bs ≤ 0 then Except.error (Err.value "Seed batch size must be a positive integer")
        else Except.ok bs) = Except.ok bs
      rw [if_neg (by omega)]
    rw [h0, h1, ok_bind, map_ok]
  · intro c fmt hc
    cases fmt with
    | none =>
      have h0 : classifyModelKind
          (.dkind ((ModelKind.incrementalByTimeRange ⟨⟨c, none⟩, none, none⟩).to_expression)) =
          Except.map (fun k => some (ModelKind.incrementalByTimeRange k))
            (TimeColumn.make c none >>= fun tc => Except.ok ⟨tc, none, none⟩) := rfl
      have h1 : TimeColumn.make c none = .ok ⟨c, none⟩ := by
        unfold TimeColumn.make; rw [if_neg hc]
      rw [h0, h1, ok_bind, map_ok]
    | some f =>
      have h0 : classifyModelKind
          (.dkind ((ModelKind.incrementalByTimeRange ⟨⟨c, some f⟩, none, none⟩).to_expression)) =
          Except.map (fun k => some (ModelKind.incrementalByTimeRange k))
            (TimeColumn.make c (some f) >>= fun tc => Except.ok ⟨tc, none, none⟩) := rfl
      have h1 : TimeColumn.make c (some f) = .ok ⟨c, some f⟩ := by
        unfold TimeColumn.make; rw [if_neg hc]
      rw [h0, h1, ok_bind, map_ok]

/-- Witness for C1 (amended) at FULL, a concrete seed, and a concrete
time-range kind with a format. -/
theorem round_trip_amended_witness :
    classifyModelKind (.dkind ((ModelKind.base .FULL).to_expression)) =
      .ok (some (.base .FULL)) ∧
    classifyModelKind (.dkind ((ModelKind.seed ⟨"data.csv", 25⟩).to_expression)) =
      .ok (some (.seed ⟨"data.csv", 25⟩)) ∧
    classifyModelKind
        (.dkind ((ModelKind.incrementalByTimeRange
          ⟨⟨"ds", some "%Y-%m-%d"⟩, none, none⟩).to_expression)) =
      .ok (some (.incrementalByTimeRange ⟨⟨"ds", some "%Y-%m-%d"⟩, none, none⟩)) :=
  ⟨round_trip_amended.1 .FULL (by decide),
   round_trip_amended.2.1 "data.csv" 25 (by decide),
   round_trip_amended.2.2.2 "ds" (some "%Y-%m-%d") (by decide)⟩

/-- Claim C3 counterexample: Not every listed validation failure surfaces
as `ConfigError`: a non-positive seed batch size raises a plain
`ValueError` (which pydantic wraps into a `ValidationError`), not
`ConfigError`. -/
theorem error_kind_counterexample :
    SeedKind.fromMap [("path", .str "p"), ("batch_size", .int 0)] =
      .error (.value "Seed batch size must be a positive integer") ∧
    ¬ ∃ msg, SeedKind.fromMap [("path", .str "p"), ("batch_size", .int 0)] =
        .error (.config msg) := by
  refine ⟨rfl, ?_⟩
  rintro ⟨msg, hmsg⟩
  have h3 : (Except.error (Err.value "Seed batch size must be a positive integer") :
      Except Err SeedKind) = Except.error (Err.config msg) := hmsg
  injection h3 with h4
  exact Err.noConfusion h4

/-- Claim C3 amended: The listed validation failures split into two error
kinds: an unresolvable kind tag, an empty time-column name, and a
negative batch_size/lookback raise `ConfigError`; a non-integer
batch_size/lookback, `batch_size < lookback`, and a non-positive seed
batch_size raise `ValueError` (surfaced through the pydantic
`ValidationError`), not `ConfigError`. All are raised eagerly at
construction. -/
theorem error_kind_amended (s : String) (b : Int) :
    (ModelKindName.fromString? (pyUpper s) = none →
      classifyModelKind (.str s) =
        .error (.config ("Invalid model kind \x27" ++ pyUpper s ++ "\x27"))) ∧
    timeColumnFieldValidator (.str "") =
      .error (.config "Time Column cannot be empty.") ∧
    (b < 0 → intFieldValidator "batch_size" (.int b) =
      .error (.config ("Invalid value " ++ toString b ++ " for " ++ "batch_size" ++
        ". The value should be greater than 0"))) ∧
    intFieldValidator "batch_size" (.str "abc") =
      .error (.value "invalid literal for int() with base 10: \x27abc\x27") ∧
    (0 < b → b < 5 → incrementalAfterValidator (some b) (some 5) =
      .error (.value "batch_size cannot be less than lookback")) ∧
    (b ≤ 0 → parseSeedBatchSize (.int b) =
      .error (.value "Seed batch size must be a positive integer")) := by
  refine ⟨?_, rfl, ?_, rfl, ?_, ?_⟩
  · intro h
    simp only [classifyModelKind, pyStr]
    rw [h]
  · intro hb
    have h0 : intFieldValidator "batch_size" (.int b) =
        checkNonNegative "batch_size" b := rfl
    rw [h0]
    unfold checkNonNegative
    rw [if_pos hb]
  · intro hb0 hb5
    unfold incrementalAfterValidator
    rw [if_pos (by simp [optIntTruthy, Option.getD]; omega)]
  · intro hb
    show (if b ≤ 0 then Except.error (Err.value "Seed batch size must be a positive integer")
      else Except.ok b) = Except.error (Err.value "Seed batch size must be a positive integer")
    rw [if_pos hb]

/-- Witness for C3 (amended), applying it at concrete inputs for each
failure kind. -/
theorem error_kind_amended_witness :
    intFieldValidator "batch_size" (.int (-3)) =
      .error (.config "Invalid value -3 for batch_size. The value should be greater than 0") ∧
    incrementalAfterValidator (some 2) (some 5) =
      .error (.value "batch_size cannot be less than lookback") ∧
    parseSeedBatchSize (.int 0) =
      .error (.value "Seed batch size must be a positive integer") ∧
    classifyModelKind (.str "nope") =
      .error (.config "Invalid model kind \x27NOPE\x27") :=
  ⟨(error_kind_amended "nope" (-3)).2.2.1 (by decide),
   (error_kind_amended "nope" 2).2.2.2.2.1 (by decide) (by decide),
   (error_kind_amended "nope" 0).2.2.2.2.2 (by decide),
   (error_kind_amended "nope" 0).1 (by rfl)⟩

/-- Claim C10: Extra fields are forbidden: constructing any variant from a
mapping containing a key that is not among the declared
field names fails at construction; unknown keys are never silently
dropped. -/
theorem extra_fields_forbidden (m : List (String × Value)) (k : String) (v : Value)
    (hmem : (k, v) ∈ m) :
    (k ∉ ModelKind.fields → ∃ e, ModelKind.fromMap m = .error e) ∧
    (k ∉ IncrementalByTimeRangeKind.fields →
      ∃ e, IncrementalByTimeRangeKind.fromMap m = .error e) ∧
    (k ∉ IncrementalByUniqueKeyKind.fields →
      ∃ e, IncrementalByUniqueKeyKind.fromMap m = .error e) ∧
    (k ∉ ViewKind.fields → ∃ e, ViewKind.fromMap m = .error e) ∧
    (k ∉ SeedKind.fields → ∃ e, SeedKind.fromMap m = .error e) := by
  have hx : ∀ fields : List String, k ∉ fields →
      ∃ e, extraCheck fields m = .error e := by
    intro fields hk
    have hfind : (m.find? (fun p => !(fields.contains p.1))).isSome := by
      apply List.find?_isSome.mpr
      exact ⟨(k, v), hmem, by simp [hk]⟩
    obtain ⟨p, hp⟩ := Option.isSome_iff_exists.mp hfind
    refine ⟨.validation (p.1 ++ ": Extra inputs are not permitted"), ?_⟩
    unfold extraCheck
    rw [hp]
  refine ⟨fun hk => ?_, fun hk => ?_, fun hk => ?_, fun hk => ?_, fun hk => ?_⟩
  · obtain ⟨e, he⟩ := hx ModelKind.fields hk
    exact ⟨e, by unfold ModelKind.fromMap; rw [he]; rfl⟩
  · obtain ⟨e, he⟩ := hx IncrementalByTimeRangeKind.fields hk
    exact ⟨e, by unfold IncrementalByTimeRangeKind.fromMap; rw [he]; rfl⟩
  · obtain ⟨e, he⟩ := hx IncrementalByUniqueKeyKind.fields hk
    exact ⟨e, by unfold IncrementalByUniqueKeyKind.fromMap; rw [he]; rfl⟩
  · obtain ⟨e, he⟩ := hx ViewKind.fields hk
    exact ⟨e, by unfold ViewKind.fromMap; rw [he]; rfl⟩
  · obtain ⟨e, he⟩ := hx SeedKind.fields hk
    exact ⟨e, by unfold SeedKind.fromMap; rw [he]; rfl⟩

/-- Witness for C10: a mapping with the unknown key "bogus" fails for
the bare class and for `SeedKind`. -/
theorem extra_fields_forbidden_witness :
    (∃ e, ModelKind.fromMap [("name", .str "FULL"), ("bogus", .int 1)] = .error e) ∧
    (∃ e, SeedKind.fromMap [("name", .str "FULL"), ("bogus", .int 1)] = .error e) := by
  have h := extra_fields_forbidden [("name", .str "FULL"), ("bogus", .int 1)]
    "bogus" (.int 1) (List.mem_cons.mpr (Or.inr (List.mem_cons.mpr (Or.inl rfl))))
  exact ⟨h.1 (by decide), h.2.2.2.2 (by decide)⟩

end SqlMesh
